import Mathlib

/-!
Verification of the financial-agent core of this repository.

The development shallowly embeds:
* the period resolver `get_date_range` (src/app/services/financial_tools.py),
  over a naive-datetime model (Python `datetime` without timezone);
* the payment repository queries (src/app/repositories/payment_repository.py)
  as pure functions over an explicit table `List Payment`, with `Decimal`
  modelled as `ℚ` and SQL `NULL` as `Option`;
* the tool-level validation (src/app/services/financial_tools.py);
* the agent orchestrator `ask` and its tool dispatch
  (src/app/services/financial_agent_service.py), parameterized over the
  LLM-plan parse result and over the behavior of the five registered tools.

The database is PostgreSQL (asyncpg connection string built in
src/app/core/settings.py, and `TO_CHAR` / `IYYY-IW` in the raw trend SQL),
so `ORDER BY col DESC` sorts SQL `NULL` values first: PostgreSQL treats
`NULL` as larger than every non-null value.
-/

/-! ## Naive datetime model (Python `datetime.datetime`, no timezone) -/

/-- A naive Python datetime: year, month (1-12), day (1-31), hour, minute,
second, microsecond. -/
structure DateTime where
  year : Nat
  month : Nat
  day : Nat
  hour : Nat
  minute : Nat
  second : Nat
  microsecond : Nat
deriving Repr, DecidableEq

/-- Gregorian leap-year rule, as used by Python `calendar`/`datetime`. -/
def isLeapYear (y : Nat) : Bool :=
  y % 4 == 0 && (!(y % 100 == 0) || y % 400 == 0)

/-- Number of days in a month of a given year (Python `calendar.monthrange`
semantics, used to model day arithmetic of `datetime` and `timedelta`). -/
def daysInMonth (y m : Nat) : Nat :=
  if m = 2 then (if isLeapYear y then 29 else 28)
  else if m = 4 ∨ m = 6 ∨ m = 9 ∨ m = 11 then 30
  else 31

/-- The fields of a representable Python datetime. -/
def DateTime.Valid (d : DateTime) : Prop :=
  1 ≤ d.year ∧ 1 ≤ d.month ∧ d.month ≤ 12 ∧ 1 ≤ d.day ∧
    d.day ≤ daysInMonth d.year d.month ∧ d.hour ≤ 23 ∧ d.minute ≤ 59 ∧
    d.second ≤ 59 ∧ d.microsecond ≤ 999999

instance (d : DateTime) : Decidable d.Valid := by
  unfold DateTime.Valid; infer_instance

/-- Linearization of a datetime, strictly monotone with respect to the
chronological (lexicographic) order on valid datetimes: each field is given
a slot strictly larger than the field's range. -/
def DateTime.key (d : DateTime) : Nat :=
  (((((d.year * 13 + d.month) * 32 + d.day) * 24 + d.hour) * 60 + d.minute)
      * 60 + d.second) * 1000000 + d.microsecond

/-- Chronological order on datetimes (via the linearization). -/
def DateTime.le (a b : DateTime) : Prop := a.key ≤ b.key

/-- Strict chronological order on datetimes. -/
def DateTime.lt (a b : DateTime) : Prop := a.key < b.key

instance (a b : DateTime) : Decidable (DateTime.le a b) := by
  unfold DateTime.le; infer_instance

instance (a b : DateTime) : Decidable (DateTime.lt a b) := by
  unfold DateTime.lt; infer_instance

/-- Subtracting `timedelta(days=1)` from a datetime whose `day` arithmetic
stays in the Gregorian calendar (time-of-day fields are unchanged). -/
def subOneDay (d : DateTime) : DateTime :=
  if 1 < d.day then { d with day := d.day - 1 }
  else if 1 < d.month then
    { d with month := d.month - 1, day := daysInMonth d.year (d.month - 1) }
  else { d with year := d.year - 1, month := 12, day := 31 }

/-- The successor of a datetime at microsecond resolution (the smallest
representable step of Python `datetime`). -/
def addOneMicro (d : DateTime) : DateTime :=
  if d.microsecond < 999999 then { d with microsecond := d.microsecond + 1 }
  else if d.second < 59 then { d with second := d.second + 1, microsecond := 0 }
  else if d.minute < 59 then
    { d with minute := d.minute + 1, second := 0, microsecond := 0 }
  else if d.hour < 23 then
    { d with hour := d.hour + 1, minute := 0, second := 0, microsecond := 0 }
  else if d.day < daysInMonth d.year d.month then
    { d with day := d.day + 1, hour := 0, minute := 0, second := 0,
             microsecond := 0 }
  else if d.month < 12 then
    { d with month := d.month + 1, day := 1, hour := 0, minute := 0,
             second := 0, microsecond := 0 }
  else
    { d with year := d.year + 1, month := 1, day := 1, hour := 0, minute := 0,
             second := 0, microsecond := 0 }

/-! ## Period resolver (src/app/services/financial_tools.py, get_date_range) -/

/-- `get_date_range` from src/app/services/financial_tools.py lines 30-112,
with the current instant `now` (Python `datetime.now()`) passed explicitly.
`Except.error` models the raised `ValueError`. -/
def get_date_range (period : String) (now : DateTime) :
    Except String (Option DateTime × Option DateTime) :=
  if period = "all_time" then .ok (none, none)
  else if period = "this_month" then
    let start := { now with day := 1, hour := 0, minute := 0, second := 0, microsecond := 0 }
    let stop :=
      if now.month = 12 then
        { now with day := 31, hour := 23, minute := 59, second := 59, microsecond := 999999 }
      else
        let next_month := { now with month := now.month + 1, day := 1 }
        { subOneDay next_month with hour := 23, minute := 59, second := 59, microsecond := 999999 }
    .ok (some start, some stop)
  else if period = "last_month" then
    let first_of_this_month :=
      { now with day := 1, hour := 0, minute := 0, second := 0, microsecond := 0 }
    let stop := { subOneDay first_of_this_month with hour := 23, minute := 59, second := 59, microsecond := 999999 }
    let start := { stop with day := 1, hour := 0, minute := 0, second := 0, microsecond := 0 }
    .ok (some start, some stop)
  else if period = "this_year" then
    .ok (some { now with month := 1, day := 1, hour := 0, minute := 0, second := 0, microsecond := 0 },
         some { now with month := 12, day := 31, hour := 23, minute := 59, second := 59, microsecond := 999999 })
  else if period = "last_year" then
    .ok (some { now with year := now.year - 1, month := 1, day := 1, hour := 0, minute := 0, second := 0, microsecond := 0 },
         some { now with year := now.year - 1, month := 12, day := 31, hour := 23, minute := 59, second := 59, microsecond := 999999 })
  else
    .error ("Unknown period: " ++ period ++
      ". Valid options: this_month, last_month, this_year, last_year, all_time")

/-! Spec-side abbreviations for the expected ranges: first instant and last
instant of a calendar month or year. -/

/-- First instant (day 1, 00:00:00.000000) of a calendar month. -/
def monthStart (y m : Nat) : DateTime := ⟨y, m, 1, 0, 0, 0, 0⟩

/-- Last instant (last day, 23:59:59.999999) of a calendar month. -/
def monthEnd (y m : Nat) : DateTime := ⟨y, m, daysInMonth y m, 23, 59, 59, 999999⟩

/-- First instant of a calendar year. -/
def yearStart (y : Nat) : DateTime := ⟨y, 1, 1, 0, 0, 0, 0⟩

/-- Last instant of a calendar year. -/
def yearEnd (y : Nat) : DateTime := ⟨y, 12, 31, 23, 59, 59, 999999⟩

/-- The calendar month preceding month `m` of year `y`. -/
def prevMonth (y m : Nat) : Nat × Nat := if m = 1 then (y - 1, 12) else (y, m - 1)

/-- The calendar month following month `m` of year `y`. -/
def nextOf (y m : Nat) : Nat × Nat := if m = 12 then (y + 1, 1) else (y, m + 1)

theorem daysInMonth_bounds (y m : Nat) :
    28 ≤ daysInMonth y m ∧ daysInMonth y m ≤ 31 := by
  unfold daysInMonth
  split
  · split <;> omega
  · split <;> omega

theorem get_date_range_this_month (now : DateTime) (h : now.Valid) :
    get_date_range "this_month" now =
      .ok (some (monthStart now.year now.month),
           some (monthEnd now.year now.month)) := by
  obtain ⟨h1, h2, h3, h4, h5, h6, h7, h8, h9⟩ := h
  unfold get_date_range
  rw [if_neg (by decide), if_pos rfl]
  by_cases h12 : now.month = 12
  · rw [if_pos h12, h12]
    rfl
  · rw [if_neg h12]
    simp only [subOneDay]
    rw [if_neg (by omega), if_pos (by omega)]
    have hm : now.month + 1 - 1 = now.month := by omega
    rw [hm]
    rfl

theorem get_date_range_last_month (now : DateTime) (h : now.Valid)
    (_hy : 2 ≤ now.year) :
    get_date_range "last_month" now =
      .ok (some (monthStart (prevMonth now.year now.month).1
                            (prevMonth now.year now.month).2),
           some (monthEnd (prevMonth now.year now.month).1
                          (prevMonth now.year now.month).2)) := by
  obtain ⟨h1, h2, h3, h4, h5, h6, h7, h8, h9⟩ := h
  unfold get_date_range
  rw [if_neg (by decide), if_neg (by decide), if_pos rfl]
  by_cases hm1 : now.month = 1
  · simp only [subOneDay]
    rw [if_neg (by omega), if_neg (by omega)]
    rw [hm1]
    rfl
  · simp only [subOneDay]
    rw [if_neg (by omega), if_pos (by omega)]
    simp only [prevMonth, if_neg hm1]
    rfl

theorem get_date_range_this_year (now : DateTime) :
    get_date_range "this_year" now =
      .ok (some (yearStart now.year), some (yearEnd now.year)) := by
  unfold get_date_range
  rw [if_neg (by decide), if_neg (by decide), if_neg (by decide), if_pos rfl]
  rfl

theorem get_date_range_last_year (now : DateTime) :
    get_date_range "last_year" now =
      .ok (some (yearStart (now.year - 1)), some (yearEnd (now.year - 1))) := by
  unfold get_date_range
  rw [if_neg (by decide), if_neg (by decide), if_neg (by decide),
    if_neg (by decide), if_pos rfl]
  rfl

theorem get_date_range_unknown (now : DateTime) (p : String)
    (hp : p ∉ (["this_month", "last_month", "this_year", "last_year",
                "all_time"] : List String)) :
    get_date_range p now =
      .error ("Unknown period: " ++ p ++
        ". Valid options: this_month, last_month, this_year, last_year, all_time") := by
  simp only [List.mem_cons, not_or] at hp
  obtain ⟨n1, n2, n3, n4, n5, -⟩ := hp
  unfold get_date_range
  rw [if_neg n5, if_neg n1, if_neg n2, if_neg n3, if_neg n4]

theorem get_date_range_all_time (now : DateTime) :
    get_date_range "all_time" now = .ok (none, none) := rfl

theorem monthStart_le_monthEnd (y m : Nat) :
    DateTime.le (monthStart y m) (monthEnd y m) := by
  have hb := daysInMonth_bounds y m
  simp only [DateTime.le, DateTime.key, monthStart, monthEnd]
  omega

theorem yearStart_le_yearEnd (y : Nat) :
    DateTime.le (yearStart y) (yearEnd y) := by
  simp only [DateTime.le, DateTime.key, yearStart, yearEnd]
  omega

/-- C1: `get_date_range`, at any current instant, maps each of the five period
tokens to its specified range: `this_month`, `last_month`, `this_year` and
`last_year` yield the first day of the implied calendar unit at 00:00:00
through its last day at 23:59:59.999999 with start ≤ end; `all_time` yields
`(none, none)`; and every token outside the set fails with an invalid-argument
error that names the offending token and lists the valid set. -/
theorem period_resolver_maps_tokens_to_ranges (now : DateTime) (h : now.Valid)
    (hy : 2 ≤ now.year) :
    get_date_range "all_time" now = .ok (none, none) ∧
    get_date_range "this_month" now =
      .ok (some (monthStart now.year now.month),
           some (monthEnd now.year now.month)) ∧
    get_date_range "last_month" now =
      .ok (some (monthStart (prevMonth now.year now.month).1
                            (prevMonth now.year now.month).2),
           some (monthEnd (prevMonth now.year now.month).1
                          (prevMonth now.year now.month).2)) ∧
    get_date_range "this_year" now =
      .ok (some (yearStart now.year), some (yearEnd now.year)) ∧
    get_date_range "last_year" now =
      .ok (some (yearStart (now.year - 1)), some (yearEnd (now.year - 1))) ∧
    DateTime.le (monthStart now.year now.month) (monthEnd now.year now.month) ∧
    DateTime.le (monthStart (prevMonth now.year now.month).1
                            (prevMonth now.year now.month).2)
                (monthEnd (prevMonth now.year now.month).1
                          (prevMonth now.year now.month).2) ∧
    DateTime.le (yearStart now.year) (yearEnd now.year) ∧
    DateTime.le (yearStart (now.year - 1)) (yearEnd (now.year - 1)) ∧
    (∀ p : String,
      p ∉ (["this_month", "last_month", "this_year", "last_year",
            "all_time"] : List String) →
      get_date_range p now =
        .error ("Unknown period: " ++ p ++
          ". Valid options: this_month, last_month, this_year, last_year, all_time")) := by
  refine ⟨get_date_range_all_time now, get_date_range_this_month now h,
    get_date_range_last_month now h hy, get_date_range_this_year now,
    get_date_range_last_year now, monthStart_le_monthEnd now.year now.month,
    monthStart_le_monthEnd (prevMonth now.year now.month).1
      (prevMonth now.year now.month).2,
    yearStart_le_yearEnd now.year, yearStart_le_yearEnd (now.year - 1),
    fun p hp => get_date_range_unknown now p hp⟩

theorem period_resolver_maps_tokens_to_ranges_witness :
    (DateTime.Valid ⟨2026, 10, 12, 9, 30, 0, 0⟩ ∧ 2 ≤ (2026 : Nat)) ∧
    get_date_range "this_month" ⟨2026, 10, 12, 9, 30, 0, 0⟩ =
      .ok (some (monthStart 2026 10), some (monthEnd 2026 10)) ∧
    get_date_range "bogus" ⟨2026, 10, 12, 9, 30, 0, 0⟩ =
      .error ("Unknown period: bogus" ++
        ". Valid options: this_month, last_month, this_year, last_year, all_time") :=
  ⟨⟨by decide, by omega⟩,
    (period_resolver_maps_tokens_to_ranges ⟨2026, 10, 12, 9, 30, 0, 0⟩
      (by decide) (by decide)).2.1,
    (period_resolver_maps_tokens_to_ranges ⟨2026, 10, 12, 9, 30, 0, 0⟩
      (by decide) (by decide)).2.2.2.2.2.2.2.2.2 "bogus" (by decide)⟩

theorem mem_month_iff (y m : Nat) (hm1 : 1 ≤ m) (hm2 : m ≤ 12) (d : DateTime)
    (hd : d.Valid) :
    (DateTime.le (monthStart y m) d ∧ DateTime.le d (monthEnd y m)) ↔
      (d.year = y ∧ d.month = m) := by
  obtain ⟨g1, g2, g3, g4, g5, g6, g7, g8, g9⟩ := hd
  have hdd := daysInMonth_bounds d.year d.month
  have hD := daysInMonth_bounds y m
  simp only [DateTime.le, DateTime.key, monthStart, monthEnd]
  constructor
  · rintro ⟨hlo, hhi⟩
    exact ⟨by omega, by omega⟩
  · rintro ⟨e1, e2⟩
    subst e1
    subst e2
    omega

theorem month_gap (y m : Nat) (hm1 : 1 ≤ m) (hm2 : m ≤ 12) (d : DateTime)
    (hd : d.Valid) (hgt : (monthEnd y m).key < d.key) :
    (monthStart (nextOf y m).1 (nextOf y m).2).key ≤ d.key := by
  obtain ⟨g1, g2, g3, g4, g5, g6, g7, g8, g9⟩ := hd
  have hdd := daysInMonth_bounds d.year d.month
  have hD := daysInMonth_bounds y m
  by_cases hsame : d.year = y ∧ d.month = m
  · exfalso
    obtain ⟨e1, e2⟩ := hsame
    subst e1
    subst e2
    simp only [DateTime.key, monthEnd] at hgt
    omega
  · have hne : d.year ≠ y ∨ d.month ≠ m := by tauto
    simp only [DateTime.key, monthEnd] at hgt
    unfold nextOf
    by_cases h12 : m = 12
    · subst h12
      rw [if_pos rfl]
      simp only [DateTime.key, monthStart]
      rcases hne with hne | hne <;> omega
    · rw [if_neg h12]
      simp only [DateTime.key, monthStart]
      rcases hne with hne | hne <;> omega

theorem addOneMicro_monthEnd (y m : Nat) (hm2 : m ≤ 12) :
    addOneMicro (monthEnd y m) = monthStart (nextOf y m).1 (nextOf y m).2 := by
  unfold addOneMicro monthEnd
  simp only
  rw [if_neg (by omega), if_neg (by omega), if_neg (by omega), if_neg (by omega),
    if_neg (by omega)]
  unfold nextOf
  by_cases h12 : m = 12
  · subst h12
    rw [if_neg (by omega), if_pos rfl]
    rfl
  · rw [if_pos (by omega), if_neg h12]
    rfl

theorem monthEnd_lt_next_monthStart (y m : Nat) (hm2 : m ≤ 12) :
    DateTime.lt (monthEnd y m) (monthStart (nextOf y m).1 (nextOf y m).2) := by
  have hD := daysInMonth_bounds y m
  unfold DateTime.lt DateTime.key monthEnd monthStart nextOf
  by_cases h12 : m = 12
  · subst h12
    rw [if_pos rfl]
    simp only
    omega
  · rw [if_neg h12]
    simp only
    omega

theorem nextOf_prevMonth (y m : Nat) (hy : 1 ≤ y) (hm1 : 1 ≤ m) (hm2 : m ≤ 12) :
    nextOf (prevMonth y m).1 (prevMonth y m).2 = (y, m) := by
  unfold prevMonth nextOf
  by_cases hm : m = 1
  · subst hm
    rw [if_pos rfl]
    simp only
    rw [if_pos trivial, Prod.mk.injEq]
    omega
  · rw [if_neg hm]
    simp only
    rw [if_neg (by omega), Prod.mk.injEq]
    omega

/-- C9: at any current instant, the `this_month` and `last_month` ranges are
adjacent and non-overlapping — the end of `last_month` is the instant
immediately before the start of `this_month` at microsecond resolution — and a
valid datetime lies in the union of the two ranges exactly when its calendar
month is the previous month or the current month, so together the ranges cover
exactly the two consecutive calendar months with no gap in between. -/
theorem this_last_month_ranges_tile (now : DateTime) (h : now.Valid)
    (hy : 2 ≤ now.year) :
    get_date_range "last_month" now =
      .ok (some (monthStart (prevMonth now.year now.month).1
                            (prevMonth now.year now.month).2),
           some (monthEnd (prevMonth now.year now.month).1
                          (prevMonth now.year now.month).2)) ∧
    get_date_range "this_month" now =
      .ok (some (monthStart now.year now.month),
           some (monthEnd now.year now.month)) ∧
    addOneMicro (monthEnd (prevMonth now.year now.month).1
                          (prevMonth now.year now.month).2) =
      monthStart now.year now.month ∧
    DateTime.lt (monthEnd (prevMonth now.year now.month).1
                          (prevMonth now.year now.month).2)
                (monthStart now.year now.month) ∧
    (∀ d : DateTime, d.Valid →
      ((DateTime.le (monthStart (prevMonth now.year now.month).1
                                (prevMonth now.year now.month).2) d ∧
        DateTime.le d (monthEnd (prevMonth now.year now.month).1
                                (prevMonth now.year now.month).2)) ↔
        (d.year = (prevMonth now.year now.month).1 ∧
         d.month = (prevMonth now.year now.month).2)) ∧
      ((DateTime.le (monthStart now.year now.month) d ∧
        DateTime.le d (monthEnd now.year now.month)) ↔
        (d.year = now.year ∧ d.month = now.month)) ∧
      ((DateTime.le (monthStart (prevMonth now.year now.month).1
                                (prevMonth now.year now.month).2) d ∧
        DateTime.le d (monthEnd now.year now.month)) ↔
        ((d.year = (prevMonth now.year now.month).1 ∧
          d.month = (prevMonth now.year now.month).2) ∨
         (d.year = now.year ∧ d.month = now.month)))) := by
  have hv := h
  obtain ⟨hv1, hv2, hv3, hv4, hv5, hv6, hv7, hv8, hv9⟩ := hv
  have hpm1 : 1 ≤ (prevMonth now.year now.month).2 := by
    unfold prevMonth
    split <;> dsimp only <;> omega
  have hpm2 : (prevMonth now.year now.month).2 ≤ 12 := by
    unfold prevMonth
    split <;> dsimp only <;> omega
  have hnext := nextOf_prevMonth now.year now.month (by omega) hv2 hv3
  have hadd := addOneMicro_monthEnd (prevMonth now.year now.month).1
    (prevMonth now.year now.month).2 hpm2
  rw [hnext] at hadd
  have hlt := monthEnd_lt_next_monthStart (prevMonth now.year now.month).1
    (prevMonth now.year now.month).2 hpm2
  rw [hnext] at hlt
  refine ⟨get_date_range_last_month now h hy, get_date_range_this_month now h,
    hadd, hlt, ?_⟩
  intro d hd
  have hmemP := mem_month_iff (prevMonth now.year now.month).1
    (prevMonth now.year now.month).2 hpm1 hpm2 d hd
  have hmemC := mem_month_iff now.year now.month hv2 hv3 d hd
  refine ⟨hmemP, hmemC, ?_⟩
  constructor
  · rintro ⟨hlo, hhi⟩
    by_cases hle : DateTime.le d (monthEnd (prevMonth now.year now.month).1
                                           (prevMonth now.year now.month).2)
    · exact Or.inl (hmemP.mp ⟨hlo, hle⟩)
    · refine Or.inr (hmemC.mp ⟨?_, hhi⟩)
      have hgt : (monthEnd (prevMonth now.year now.month).1
          (prevMonth now.year now.month).2).key < d.key :=
        Nat.lt_of_not_le hle
      have := month_gap (prevMonth now.year now.month).1
        (prevMonth now.year now.month).2 hpm1 hpm2 d hd hgt
      rw [hnext] at this
      exact this
  · rintro (hin | hin)
    · obtain ⟨ha, hb⟩ := hmemP.mpr hin
      refine ⟨ha, ?_⟩
      have h1 : (monthStart now.year now.month).key ≤
          (monthEnd now.year now.month).key :=
        monthStart_le_monthEnd now.year now.month
      exact Nat.le_trans hb (Nat.le_trans (Nat.le_of_lt hlt) h1)
    · obtain ⟨ha, hb⟩ := hmemC.mpr hin
      refine ⟨?_, hb⟩
      have h0 : (monthStart (prevMonth now.year now.month).1
          (prevMonth now.year now.month).2).key ≤
          (monthEnd (prevMonth now.year now.month).1
          (prevMonth now.year now.month).2).key :=
        monthStart_le_monthEnd (prevMonth now.year now.month).1
          (prevMonth now.year now.month).2
      exact Nat.le_trans h0 (Nat.le_trans (Nat.le_of_lt hlt) ha)

theorem this_last_month_ranges_tile_witness :
    (DateTime.Valid ⟨2026, 1, 15, 8, 0, 0, 0⟩ ∧ 2 ≤ (2026 : Nat)) ∧
    addOneMicro (monthEnd (prevMonth 2026 1).1 (prevMonth 2026 1).2) =
      monthStart 2026 1 ∧
    DateTime.lt (monthEnd (prevMonth 2026 1).1 (prevMonth 2026 1).2)
      (monthStart 2026 1) :=
  ⟨⟨by decide, by omega⟩,
    (this_last_month_ranges_tile ⟨2026, 1, 15, 8, 0, 0, 0⟩ (by decide)
      (by decide)).2.2.1,
    (this_last_month_ranges_tile ⟨2026, 1, 15, 8, 0, 0, 0⟩ (by decide)
      (by decide)).2.2.2.1⟩

/-! ## JSON values and tool-call parameter dictionaries
(src/app/services/financial_agent_service.py) -/

/-- A JSON value, as produced by `json.loads` and consumed by tool dispatch.
Numbers are modelled as rationals (covering both ints and floats). -/
inductive JVal where
  | null : JVal
  | str : String → JVal
  | num : ℚ → JVal
  | boolean : Bool → JVal
  | arr : List JVal → JVal
  | obj : List (String × JVal) → JVal

/-- A Python dict of keyword parameters, as an insertion-ordered association
list with unique keys (the invariant Python dicts maintain). -/
def Params := List (String × JVal)

/-- Python dict assignment `params[k] = v`: overwrite in place if the key
exists, else append at the end. -/
def setParam : Params → String → JVal → Params
  | [], k, v => [(k, v)]
  | (k0, v0) :: rest, k, v =>
      if k0 = k then (k, v) :: rest else (k0, v0) :: setParam rest k v

/-- Python dict lookup `params.get(k)`. -/
def getParam : Params → String → Option JVal
  | [], _ => none
  | (k0, v0) :: rest, k => if k0 = k then some v0 else getParam rest k

theorem getParam_setParam (ps : Params) (k : String) (v : JVal) :
    getParam (setParam ps k v) k = some v := by
  induction ps with
  | nil => simp [setParam, getParam]
  | cons hd tl ih =>
      obtain ⟨k0, v0⟩ := hd
      by_cases hk : k0 = k
      · simp [setParam, getParam, hk]
      · simp [setParam, getParam, hk]
        exact ih

/-! ## Agent orchestrator (src/app/services/financial_agent_service.py) -/

/-- One entry of the parsed plan's `tool_calls` list: `{"tool": ..., "params": ...}`
(`params` defaults to `{}` when absent, line 146). -/
structure PlanToolCallSpec where
  tool : String
  params : Params

/-- The successfully parsed LLM plan JSON. Each field records whether the key
was present; `ask` applies the source defaults (`[]`, fixed answer, "medium")
via `Option.getD`, mirroring `.get(...)` on lines 144, 171 and 173. -/
structure ParsedPlan where
  tool_calls : Option (List PlanToolCallSpec)
  answer : Option String
  confidence : Option String

/-- A recorded tool call of the response (src/app/schemas/financial_schema.py,
`ToolCall`): tool name, the (subject-augmented) parameters, and either the
serialized result or `{"error": str(e)}`. -/
structure ToolCall where
  tool : String
  params : Params
  result : JVal

/-- The structured response (src/app/schemas/financial_schema.py,
`FinancialAnswerSchema`). -/
structure FinancialAnswerSchema where
  answer : String
  tool_calls : List ToolCall
  confidence : String

/-- The five registered tool names: the keys of `tool_map` in
`FinancialAgentService._execute_tool` (lines 283-289). -/
def toolNames : List String :=
  ["get_spending_summary", "get_payments_by_recipient", "get_top_recipients",
   "get_spending_by_category", "get_payment_trends"]

/-- `FinancialAgentService._execute_tool` (lines 269-299): dispatch by tool
name through `tool_map`; an unrecognized name raises
`ValueError(f"Unknown tool: {tool_name}")`. The behavior of the five bound
tool methods (database access, serialization, and any exception they raise)
is abstracted as `impl`; `Except.error` models a raised exception's message. -/
def execute_tool (impl : String → Params → Except String JVal)
    (tool_name : String) (params : Params) : Except String JVal :=
  if tool_name ∈ toolNames then impl tool_name params
  else .error ("Unknown tool: " ++ tool_name)

/-- Lines 148-150 of `FinancialAgentService.ask`: add the caller-supplied
`consumer_phone_number` to the planned params when it is truthy (Python:
`None` and the empty string are falsy), overwriting any planned value. -/
def injectPhone (consumer_phone_number : Option String) (ps : Params) :
    Params :=
  match consumer_phone_number with
  | some s =>
      if s = "" then ps
      else setParam ps "consumer_phone_number" (.str s)
  | none => ps

/-- The body of the per-tool-call loop of `FinancialAgentService.ask`
(lines 144-167): inject the caller-supplied subject filter, dispatch through
`_execute_tool`, and record either the result or the error dict. -/
def runPlannedCall (impl : String → Params → Except String JVal)
    (consumer_phone_number : Option String) (spec : PlanToolCallSpec) :
    ToolCall :=
  let params := injectPhone consumer_phone_number spec.params
  match execute_tool impl spec.tool params with
  | .ok v => { tool := spec.tool, params := params, result := v }
  | .error e => { tool := spec.tool, params := params, result := .obj [("error", .str e)] }

/-- `FinancialAgentService.ask` (lines 96-182), from the point where the LLM's
text output is in hand: `jsonLoads` abstracts `json.loads` (`none` models a
`json.JSONDecodeError`), `impl` abstracts the five tool methods. On parse
failure the fixed apology fallback is returned (lines 136-140); otherwise each
planned tool call is executed in plan order and the structured response is
assembled (lines 142-174). -/
def ask (impl : String → Params → Except String JVal)
    (jsonLoads : String → Option ParsedPlan) (ai_response : String)
    (consumer_phone_number : Option String) : FinancialAnswerSchema :=
  match jsonLoads ai_response with
  | none =>
      { answer := "I'm sorry, I couldn't process your question. Could you rephrase it?"
        tool_calls := []
        confidence := "low" }
  | some plan =>
      { answer := plan.answer.getD "I couldn't generate an answer."
        tool_calls := (plan.tool_calls.getD []).map
          (runPlannedCall impl consumer_phone_number)
        confidence := plan.confidence.getD "medium" }

theorem runPlannedCall_eta (impl : String → Params → Except String JVal)
    (phone : Option String) (spec : PlanToolCallSpec) :
    runPlannedCall impl phone spec =
      { tool := spec.tool
        params := injectPhone phone spec.params
        result :=
          match execute_tool impl spec.tool (injectPhone phone spec.params) with
          | .ok v => v
          | .error e => .obj [("error", .str e)] } := by
  unfold runPlannedCall
  dsimp only
  cases execute_tool impl spec.tool (injectPhone phone spec.params) <;> rfl

/-- C2: for every planned tool call executed by the orchestrator, a truthy
caller-supplied consumer phone number is injected into that call's parameters
before dispatch, overriding any `consumer_phone_number` the LLM plan
specified, and the recorded tool-call parameters are exactly the
subject-augmented ones. -/
theorem subject_filter_injected (impl : String → Params → Except String JVal)
    (jsonLoads : String → Option ParsedPlan) (resp : String)
    (plan : ParsedPlan) (hparse : jsonLoads resp = some plan) (s : String)
    (hs : s ≠ "") :
    ∀ r ∈ (ask impl jsonLoads resp (some s)).tool_calls,
      getParam r.params "consumer_phone_number" = some (.str s) ∧
      ∃ spec ∈ plan.tool_calls.getD [],
        r.tool = spec.tool ∧
        r.params = setParam spec.params "consumer_phone_number" (.str s) := by
  intro r hr
  simp only [ask, hparse, List.mem_map] at hr
  obtain ⟨spec, hspec, hrec⟩ := hr
  subst hrec
  rw [runPlannedCall_eta]
  have hinj : injectPhone (some s) spec.params =
      setParam spec.params "consumer_phone_number" (.str s) := by
    simp only [injectPhone]
    rw [if_neg hs]
  simp only [hinj]
  exact ⟨getParam_setParam spec.params "consumer_phone_number" (.str s),
    spec, hspec, rfl, rfl⟩

/-- C3: when the LLM plan output does not parse as JSON, `ask` does not raise;
it returns the fixed apology answer, an empty tool-call list and confidence
"low". -/
theorem malformed_plan_returns_fallback
    (impl : String → Params → Except String JVal)
    (jsonLoads : String → Option ParsedPlan) (resp : String)
    (phone : Option String) (hfail : jsonLoads resp = none) :
    ask impl jsonLoads resp phone =
      { answer := "I'm sorry, I couldn't process your question. Could you rephrase it?"
        tool_calls := []
        confidence := "low" } := by
  unfold ask
  rw [hfail]

/-- C4: with a parsed plan in hand, every planned tool call — including every
one after a failing call — is executed in plan order and yields exactly one
record; dispatching a tool name outside the registry fails with
`Unknown tool: <name>` and that failure is recorded as the error-dict result
of that call only; and `ask` still returns the structured response assembled
from the plan. -/
theorem unknown_tool_recorded_and_plan_continues
    (impl : String → Params → Except String JVal)
    (jsonLoads : String → Option ParsedPlan) (resp : String)
    (phone : Option String) (plan : ParsedPlan)
    (hparse : jsonLoads resp = some plan) :
    (ask impl jsonLoads resp phone).answer =
      plan.answer.getD "I couldn't generate an answer." ∧
    (ask impl jsonLoads resp phone).confidence =
      plan.confidence.getD "medium" ∧
    (ask impl jsonLoads resp phone).tool_calls.length =
      (plan.tool_calls.getD []).length ∧
    (∀ i (hi : i < (plan.tool_calls.getD []).length)
        (hi2 : i < (ask impl jsonLoads resp phone).tool_calls.length),
      (ask impl jsonLoads resp phone).tool_calls.get ⟨i, hi2⟩ =
        runPlannedCall impl phone ((plan.tool_calls.getD []).get ⟨i, hi⟩)) ∧
    (∀ spec : PlanToolCallSpec, spec.tool ∉ toolNames →
      execute_tool impl spec.tool (injectPhone phone spec.params) =
        .error ("Unknown tool: " ++ spec.tool) ∧
      (runPlannedCall impl phone spec).tool = spec.tool ∧
      (runPlannedCall impl phone spec).result =
        .obj [("error", .str ("Unknown tool: " ++ spec.tool))]) ∧
    (∀ spec : PlanToolCallSpec, spec.tool ∈ toolNames → ∀ v : JVal,
      impl spec.tool (injectPhone phone spec.params) = .ok v →
      (runPlannedCall impl phone spec).result = v) := by
  refine ⟨?_, ?_, ?_, ?_, ?_, ?_⟩
  · simp [ask, hparse]
  · simp [ask, hparse]
  · simp [ask, hparse]
  · intro i hi hi2
    simp only [ask, hparse, List.get_eq_getElem, List.getElem_map]
  · intro spec hspec
    have hex : execute_tool impl spec.tool (injectPhone phone spec.params) =
        .error ("Unknown tool: " ++ spec.tool) := by
      unfold execute_tool
      rw [if_neg hspec]
    refine ⟨hex, ?_, ?_⟩
    · rw [runPlannedCall_eta]
    · rw [runPlannedCall_eta]
      simp only [hex]
  · intro spec hspec v hv
    have hex : execute_tool impl spec.tool (injectPhone phone spec.params) =
        .ok v := by
      unfold execute_tool
      rw [if_pos hspec]
      exact hv
    rw [runPlannedCall_eta]
    simp only [hex]

/-! Concrete fixtures for the orchestrator witnesses. -/

/-- A trivial tool behavior: every registered tool succeeds with `null`. -/
def implZ : String → Params → Except String JVal := fun _ _ => .ok .null

/-- A planned call whose params carry an LLM-chosen phone number that the
caller-supplied filter must override. -/
def specZ : PlanToolCallSpec :=
  ⟨"get_spending_summary",
   [("consumer_phone_number", .str "999"), ("period", .str "this_month")]⟩

/-- A planned call naming a tool outside the registry. -/
def specW : PlanToolCallSpec := ⟨"get_balance", []⟩

def planZ : ParsedPlan := ⟨some [specZ], some "done", some "high"⟩

def planW : ParsedPlan := ⟨some [specW, specZ], none, none⟩

/-- A parse function fixture: "PLAN" parses to `planZ`, "PLANW" to `planW`,
everything else fails to parse. -/
def loadsZ : String → Option ParsedPlan :=
  fun s =>
    if s = "PLAN" then some planZ
    else if s = "PLANW" then some planW
    else none

theorem subject_filter_injected_witness :
    loadsZ "PLAN" = some planZ ∧ ("254700000001" : String) ≠ "" ∧
    getParam (runPlannedCall implZ (some "254700000001") specZ).params
      "consumer_phone_number" = some (.str "254700000001") := by
  refine ⟨rfl, by decide, ?_⟩
  have hmem : runPlannedCall implZ (some "254700000001") specZ ∈
      (ask implZ loadsZ "PLAN" (some "254700000001")).tool_calls := by
    simp [ask, loadsZ, planZ]
  exact (subject_filter_injected implZ loadsZ "PLAN" planZ rfl "254700000001"
    (by decide) _ hmem).1

theorem malformed_plan_returns_fallback_witness :
    loadsZ "this is not json" = none ∧
    ask implZ loadsZ "this is not json" none =
      { answer := "I'm sorry, I couldn't process your question. Could you rephrase it?"
        tool_calls := []
        confidence := "low" } :=
  ⟨rfl, malformed_plan_returns_fallback implZ loadsZ "this is not json" none rfl⟩

theorem unknown_tool_recorded_and_plan_continues_witness :
    ("get_balance" ∉ toolNames) ∧
    (runPlannedCall implZ none specW).result =
      .obj [("error", .str ("Unknown tool: " ++ "get_balance"))] ∧
    (ask implZ loadsZ "PLANW" none).tool_calls.length = 2 ∧
    (ask implZ loadsZ "PLANW" none).tool_calls[1]? =
      some (runPlannedCall implZ none specZ) := by
  have h := unknown_tool_recorded_and_plan_continues implZ loadsZ "PLANW"
    none planW rfl
  refine ⟨by decide, ?_, ?_, ?_⟩
  · exact (h.2.2.2.2.1 specW (by decide)).2.2
  · rw [h.2.2.1]
    rfl
  · have hi2 : 1 < (ask implZ loadsZ "PLANW" none).tool_calls.length := by
      rw [h.2.2.1]
      decide
    have h4 := h.2.2.2.1 1 (by decide) hi2
    rw [List.getElem?_eq_getElem hi2]
    simpa [planW] using h4

/-! ## Payment rows and repository queries
(src/app/models/payment.py, src/app/repositories/payment_repository.py) -/

/-- An `end_user_payments` row (src/app/models/payment.py), restricted to the
columns the repository queries touch. `amount` (a 2-decimal-place `Decimal`)
is modelled as `ℚ`; nullable columns as `Option`. -/
structure Payment where
  id : Nat
  name : Option String
  direction : String
  amount : ℚ
  sender_id : String
  consumer_phone_number : String
  paid_at : Option DateTime
  created_at : DateTime
  transaction_id : String
deriving Repr, DecidableEq

/-- SQL filter `paid_at >= start_date` (absent when `start_date` is `None`);
a SQL comparison against a `NULL` `paid_at` is not satisfied. -/
def paidGte (p : Payment) (start_date : Option DateTime) : Bool :=
  match start_date with
  | none => true
  | some s =>
      match p.paid_at with
      | none => false
      | some t => decide (s.key ≤ t.key)

/-- SQL filter `paid_at <= end_date` (absent when `end_date` is `None`). -/
def paidLte (p : Payment) (end_date : Option DateTime) : Bool :=
  match end_date with
  | none => true
  | some e =>
      match p.paid_at with
      | none => false
      | some t => decide (t.key ≤ e.key)

/-- `if direction != "all": query.filter(direction=direction)`. -/
def dirFilter (p : Payment) (direction : String) : Bool :=
  direction == "all" || p.direction == direction

/-- `if consumer_phone_number: query.filter(consumer_phone_number=...)` —
Python truthiness: `None` and the empty string apply no filter. -/
def phoneFilter (p : Payment) (phone : Option String) : Bool :=
  match phone with
  | none => true
  | some s => s == "" || p.consumer_phone_number == s

/-- Whether one character list is a prefix of another. -/
def isPrefixB : List Char → List Char → Bool
  | [], _ => true
  | _ :: _, [] => false
  | a :: as, b :: bs => a == b && isPrefixB as bs

/-- Whether one character list occurs contiguously inside another. -/
def isInfixB (n : List Char) : List Char → Bool
  | [] => isPrefixB n []
  | c :: hs => isPrefixB n (c :: hs) || isInfixB n hs

/-- The characters of a string, lower-cased (Python `str.lower()` on the
ASCII names this schema stores). -/
def lowerChars (s : String) : List Char := s.toList.map Char.toLower

/-- PostgreSQL `name ILIKE '%needle%'` (Tortoise `name__icontains`):
case-insensitive substring match, never satisfied by a `NULL` name. -/
def icontains (field : Option String) (needle : String) : Bool :=
  match field with
  | none => false
  | some s => isInfixB (lowerChars needle) (lowerChars s)

/-- `ORDER BY paid_at DESC` under PostgreSQL: `NULL` sorts as larger than
every non-null value, hence null-settlement rows come first. `paidDescB a b`
says `a` may precede `b`. -/
def paidDescB (a b : Payment) : Bool :=
  match a.paid_at, b.paid_at with
  | none, _ => true
  | some _, none => false
  | some x, some y => decide (y.key ≤ x.key)

def paidDescR (a b : Payment) : Prop := paidDescB a b = true

instance : DecidableRel paidDescR := fun a b =>
  inferInstanceAs (Decidable (paidDescB a b = true))

theorem paidDescB_refl_total (a b : Payment) :
    paidDescB a b = true ∨ paidDescB b a = true := by
  unfold paidDescB
  match a.paid_at, b.paid_at with
  | none, _ => exact Or.inl rfl
  | some x, none => exact Or.inr rfl
  | some x, some y =>
      rcases Nat.le_total y.key x.key with h | h
      · exact Or.inl (decide_eq_true h)
      · exact Or.inr (decide_eq_true h)

theorem paidDescB_trans (a b c : Payment) (hab : paidDescB a b = true)
    (hbc : paidDescB b c = true) : paidDescB a c = true := by
  unfold paidDescB at *
  match ha : a.paid_at, hb : b.paid_at, hc : c.paid_at with
  | none, _, _ => rfl
  | some x, none, _ => rw [ha, hb] at hab; exact absurd hab (by simp)
  | some x, some y, none => rw [hb, hc] at hbc; exact absurd hbc (by simp)
  | some x, some y, some z =>
      rw [ha, hb] at hab
      rw [hb, hc] at hbc
      exact decide_eq_true
        (Nat.le_trans (of_decide_eq_true hbc) (of_decide_eq_true hab))

instance : IsTotal Payment paidDescR := ⟨paidDescB_refl_total⟩

instance : IsTrans Payment paidDescR := ⟨paidDescB_trans⟩

/-- One aggregated `GROUP BY name` row (`values("name", "total", "count")`). -/
structure RecipRow where
  name : String
  total : ℚ
  count : Nat
deriving Repr, DecidableEq

/-- A `GROUP BY name` row after the average-computation loop. -/
structure RecipRowAvg where
  name : String
  total : ℚ
  count : Nat
  average : ℚ
deriving Repr, DecidableEq

/-- `ORDER BY total DESC` on recipient groups. -/
def totGeR (a b : RecipRow) : Prop := b.total ≤ a.total

instance : DecidableRel totGeR := fun a b =>
  inferInstanceAs (Decidable (b.total ≤ a.total))

instance : IsTotal RecipRow totGeR := ⟨fun a b => le_total b.total a.total⟩

instance : IsTrans RecipRow totGeR := ⟨fun _ _ _ h1 h2 => le_trans h2 h1⟩

/-- SQL `GROUP BY name` with `SUM(amount)` and `COUNT(id)` over rows whose
name is non-null (group order before `ORDER BY` is unspecified; first
appearance order realizes one valid choice). -/
def aggregateByName (rows : List Payment) : List RecipRow :=
  ((rows.filterMap fun p => p.name).dedup).map fun n =>
    let grp := rows.filter fun p => p.name = some n
    { name := n, total := (grp.map fun p => p.amount).sum, count := grp.length }

/-- One aggregated `GROUP BY sender_id` row. -/
structure CatRow where
  sender_id : String
  total : ℚ
  count : Nat
deriving Repr, DecidableEq

/-- A category row after the percentage loop of `get_spending_by_category`. -/
structure CatRowP where
  sender_id : String
  total : ℚ
  count : Nat
  percentage : ℚ
deriving Repr, DecidableEq

/-- `ORDER BY total DESC` on category groups. -/
def catGeR (a b : CatRow) : Prop := b.total ≤ a.total

instance : DecidableRel catGeR := fun a b =>
  inferInstanceAs (Decidable (b.total ≤ a.total))

instance : IsTotal CatRow catGeR := ⟨fun a b => le_total b.total a.total⟩

instance : IsTrans CatRow catGeR := ⟨fun _ _ _ h1 h2 => le_trans h2 h1⟩

/-- SQL `GROUP BY sender_id` with `SUM(amount)` and `COUNT(id)`. -/
def aggregateBySender (rows : List Payment) : List CatRow :=
  ((rows.map fun p => p.sender_id).dedup).map fun sid =>
    let grp := rows.filter fun p => p.sender_id = sid
    { sender_id := sid, total := (grp.map fun p => p.amount).sum,
      count := grp.length }

/-- One row of the raw trend SQL: `TO_CHAR(paid_at, fmt)` of a `NULL`
`paid_at` is `NULL`, so the period label is optional. `AVG(amount)` equals
`SUM(amount)/COUNT(*)` per group. -/
structure TrendRow where
  period : Option String
  total : ℚ
  count : Nat
  average : ℚ
deriving Repr, DecidableEq

/-- `date_format_map.get(granularity, "YYYY-MM")` (payment_repository.py
lines 198-204): the `"month"` key and the missing-key default are the same
literal, so the final branch covers both. -/
def trendDateFormat (granularity : String) : String :=
  if granularity = "day" then "YYYY-MM-DD"
  else if granularity = "week" then "IYYY-IW"
  else "YYYY-MM"

/-- `ORDER BY period DESC` under PostgreSQL (`NULL` first). -/
def perDescB (a b : Option String) : Bool :=
  match a, b with
  | none, _ => true
  | some _, none => false
  | some x, some y => decide (y ≤ x)

def perDescR (a b : TrendRow) : Prop := perDescB a.period b.period = true

instance : DecidableRel perDescR := fun a b =>
  inferInstanceAs (Decidable (perDescB a.period b.period = true))

theorem perDescB_refl_total (o1 o2 : Option String) :
    perDescB o1 o2 = true ∨ perDescB o2 o1 = true := by
  unfold perDescB
  match o1, o2 with
  | none, _ => exact Or.inl rfl
  | some x, none => exact Or.inr rfl
  | some x, some y =>
      rcases le_total y x with h | h
      · exact Or.inl (decide_eq_true h)
      · exact Or.inr (decide_eq_true h)

theorem perDescB_trans (o1 o2 o3 : Option String) (h12 : perDescB o1 o2 = true)
    (h23 : perDescB o2 o3 = true) : perDescB o1 o3 = true := by
  unfold perDescB at *
  match o1, o2, o3 with
  | none, _, _ => rfl
  | some x, none, _ => exact absurd h12 (by simp)
  | some x, some y, none => exact absurd h23 (by simp)
  | some x, some y, some z =>
      exact decide_eq_true (le_trans (of_decide_eq_true h23) (of_decide_eq_true h12))

instance : IsTotal TrendRow perDescR := ⟨fun a b => perDescB_refl_total a.period b.period⟩

instance : IsTrans TrendRow perDescR :=
  ⟨fun a b c => perDescB_trans a.period b.period c.period⟩

namespace PaymentRepository

/-- `PaymentRepository.get_payments_by_name_fuzzy` (payment_repository.py
lines 61-83): case-insensitive substring filter on `name`, optional phone
filter, `ORDER BY paid_at DESC` (PostgreSQL: nulls first), `LIMIT limit`. -/
def get_payments_by_name_fuzzy (table : List Payment) (name : String)
    (limit : Int) (consumer_phone_number : Option String) : List Payment :=
  let rows := table.filter fun p =>
    icontains p.name name && phoneFilter p consumer_phone_number
  (List.insertionSort paidDescR rows).take limit.toNat

/-- `PaymentRepository.get_top_recipients_aggregated` (payment_repository.py
lines 85-137): date/direction/phone filters, null names excluded,
`GROUP BY name`, `ORDER BY total DESC`, `LIMIT limit`, then the average loop:
`total / count` when `count > 0`, else `Decimal("0.00")`. -/
def get_top_recipients_aggregated (table : List Payment) (direction : String)
    (start_date end_date : Option DateTime) (limit : Int)
    (consumer_phone_number : Option String) : List RecipRowAvg :=
  let rows := table.filter fun p =>
    paidGte p start_date && paidLte p end_date && dirFilter p direction &&
      phoneFilter p consumer_phone_number && p.name.isSome
  let results := (List.insertionSort totGeR (aggregateByName rows)).take limit.toNat
  results.map fun r =>
    { name := r.name, total := r.total, count := r.count,
      average := if 0 < r.count then r.total / r.count else 0 }

/-- `PaymentRepository.get_spending_by_sender` (payment_repository.py
lines 139-172): outgoing rows only, date/phone filters, `GROUP BY sender_id`,
`ORDER BY total DESC`. -/
def get_spending_by_sender (table : List Payment)
    (start_date end_date : Option DateTime)
    (consumer_phone_number : Option String) : List CatRow :=
  let rows := table.filter fun p =>
    p.direction == "outgoing" && paidGte p start_date && paidLte p end_date &&
      phoneFilter p consumer_phone_number
  List.insertionSort catGeR (aggregateBySender rows)

/-- `PaymentRepository.get_trend_data` (payment_repository.py lines 174-240):
raw SQL over outgoing rows (phone filter when truthy), grouped by
`TO_CHAR(paid_at, fmt)` with `fmt = date_format_map.get(granularity, "YYYY-MM")`,
per group `SUM`, `COUNT`, `AVG = SUM/COUNT`, `ORDER BY period DESC`
(PostgreSQL: null period first), `LIMIT limit`. `toChar` abstracts the
database's `TO_CHAR` formatting function. -/
def get_trend_data (toChar : DateTime → String → String) (table : List Payment)
    (granularity : String) (limit : Int)
    (consumer_phone_number : Option String) : List TrendRow :=
  let fmt := trendDateFormat granularity
  let rows := table.filter fun p =>
    p.direction == "outgoing" && phoneFilter p consumer_phone_number
  let keys := (rows.map fun p => p.paid_at.map fun d => toChar d fmt).dedup
  let groups := keys.map fun k =>
    let grp := rows.filter fun p => (p.paid_at.map fun d => toChar d fmt) = k
    { period := k, total := (grp.map fun p => p.amount).sum,
      count := grp.length,
      average :=
        if 0 < grp.length then (grp.map fun p => p.amount).sum / grp.length
        else 0 : TrendRow }
  (List.insertionSort perDescR groups).take limit.toNat

end PaymentRepository

/-- Whether an `Except` result is a success. -/
def isOkE {ε α : Type} : Except ε α → Bool
  | .ok _ => true
  | .error _ => false

/-- One output dict of `FinancialTools.get_payments_by_recipient`
(financial_tools.py lines 304-313); `date` is `paid_at or created_at`. -/
structure RecipientPayment where
  name : Option String
  amount : ℚ
  date : DateTime
  direction : String
  transaction_id : String
deriving Repr, DecidableEq

namespace FinancialTools

/-- `FinancialTools.get_payments_by_recipient` (financial_tools.py
lines 241-313): limit bounds check then the fuzzy repository query, rows
mapped to output dicts. -/
def get_payments_by_recipient (table : List Payment) (name : String)
    (limit : Int) (consumer_phone_number : Option String) :
    Except String (List RecipientPayment) :=
  if limit < 1 ∨ 100 < limit then .error "Limit must be between 1 and 100"
  else
    .ok ((PaymentRepository.get_payments_by_name_fuzzy table name limit
        consumer_phone_number).map fun p =>
      { name := p.name, amount := p.amount, date := p.paid_at.getD p.created_at,
        direction := p.direction, transaction_id := p.transaction_id })

/-- `FinancialTools.get_top_recipients` (financial_tools.py lines 315-385):
limit bounds check, then period resolution, then the aggregated query. -/
def get_top_recipients (table : List Payment) (now : DateTime)
    (direction : String) (limit : Int) (period : String)
    (consumer_phone_number : Option String) :
    Except String (List RecipRowAvg) :=
  if limit < 1 ∨ 20 < limit then .error "Limit must be between 1 and 20"
  else
    match get_date_range period now with
    | .error e => .error e
    | .ok (start_date, end_date) =>
        .ok (PaymentRepository.get_top_recipients_aggregated table direction
          start_date end_date limit consumer_phone_number)

/-- The percentage loop of `FinancialTools.get_spending_by_category`
(financial_tools.py lines 443-449): each group's share of the grand total
across the returned groups, `0.0` unless the grand total is positive.
(The Python `float(...)` conversion is the identity in the `ℚ` model.) -/
def computePercentages (categories : List CatRow) : List CatRowP :=
  let total_spending := (categories.map fun c => c.total).sum
  categories.map fun c =>
    { sender_id := c.sender_id, total := c.total, count := c.count,
      percentage :=
        if 0 < total_spending then c.total / total_spending * 100 else 0 }

/-- `FinancialTools.get_spending_by_category` (financial_tools.py
lines 387-451): period resolution, sender grouping, then percentages. -/
def get_spending_by_category (table : List Payment) (now : DateTime)
    (period : String) (consumer_phone_number : Option String) :
    Except String (List CatRowP) :=
  match get_date_range period now with
  | .error e => .error e
  | .ok (start_date, end_date) =>
      .ok (computePercentages (PaymentRepository.get_spending_by_sender table
        start_date end_date consumer_phone_number))

/-- `FinancialTools.get_payment_trends` (financial_tools.py lines 453-523):
limit bounds check then the trend query. -/
def get_payment_trends (toChar : DateTime → String → String)
    (table : List Payment) (granularity : String) (limit : Int)
    (consumer_phone_number : Option String) : Except String (List TrendRow) :=
  if limit < 1 ∨ 365 < limit then .error "Limit must be between 1 and 365"
  else
    .ok (PaymentRepository.get_trend_data toChar table granularity limit
      consumer_phone_number)

end FinancialTools

/-- C5: `get_payments_by_recipient` fails with its invalid-argument error iff
the limit is outside [1,100], `get_top_recipients` iff outside [1,20],
`get_payment_trends` iff outside [1,365]; all in-bounds values, including the
boundaries, pass validation and the operation proceeds (for a resolvable
period; the limit check precedes period resolution, so an out-of-bounds limit
fails for every period). -/
theorem limit_validation_bounds (table : List Payment) (now : DateTime)
    (name : String) (toChar : DateTime → String → String) (g : String)
    (phone : Option String) (l1 l2 l3 : Int) (period : String) :
    (isOkE (FinancialTools.get_payments_by_recipient table name l1 phone) =
        true ↔ 1 ≤ l1 ∧ l1 ≤ 100) ∧
    ((l1 < 1 ∨ 100 < l1) →
      FinancialTools.get_payments_by_recipient table name l1 phone =
        .error "Limit must be between 1 and 100") ∧
    (isOkE (FinancialTools.get_top_recipients table now "outgoing" l2
        "all_time" phone) = true ↔ 1 ≤ l2 ∧ l2 ≤ 20) ∧
    ((l2 < 1 ∨ 20 < l2) →
      FinancialTools.get_top_recipients table now "outgoing" l2 period phone =
        .error "Limit must be between 1 and 20") ∧
    (isOkE (FinancialTools.get_payment_trends toChar table g l3 phone) =
        true ↔ 1 ≤ l3 ∧ l3 ≤ 365) ∧
    ((l3 < 1 ∨ 365 < l3) →
      FinancialTools.get_payment_trends toChar table g l3 phone =
        .error "Limit must be between 1 and 365") := by
  refine ⟨?_, ?_, ?_, ?_, ?_, ?_⟩
  · unfold FinancialTools.get_payments_by_recipient
    by_cases hc : l1 < 1 ∨ 100 < l1
    · rw [if_pos hc]
      simp only [isOkE]
      constructor
      · intro h
        exact absurd h (by simp)
      · intro h
        omega
    · rw [if_neg hc]
      simp only [isOkE]
      constructor
      · intro _
        omega
      · intro _
        trivial
  · intro h
    unfold FinancialTools.get_payments_by_recipient
    rw [if_pos h]
  · unfold FinancialTools.get_top_recipients
    by_cases hc : l2 < 1 ∨ 20 < l2
    · rw [if_pos hc]
      simp only [isOkE]
      constructor
      · intro h
        exact absurd h (by simp)
      · intro h
        omega
    · rw [if_neg hc]
      rw [get_date_range_all_time now]
      simp only [isOkE]
      constructor
      · intro _
        omega
      · intro _
        trivial
  · intro h
    unfold FinancialTools.get_top_recipients
    rw [if_pos h]
  · unfold FinancialTools.get_payment_trends
    by_cases hc : l3 < 1 ∨ 365 < l3
    · rw [if_pos hc]
      simp only [isOkE]
      constructor
      · intro h
        exact absurd h (by simp)
      · intro h
        omega
    · rw [if_neg hc]
      simp only [isOkE]
      constructor
      · intro _
        omega
      · intro _
        trivial
  · intro h
    unfold FinancialTools.get_payment_trends
    rw [if_pos h]

/-- C10: a granularity outside {day, week, month} is not rejected: the trend
query silently falls back to the monthly date format `"YYYY-MM"`, so its
result — at the repository level and at the tool level — is identical to
`granularity = "month"`. -/
theorem trend_granularity_fallback (toChar : DateTime → String → String)
    (table : List Payment) (g : String) (limit : Int) (phone : Option String)
    (hg : g ∉ (["day", "week", "month"] : List String)) :
    PaymentRepository.get_trend_data toChar table g limit phone =
      PaymentRepository.get_trend_data toChar table "month" limit phone ∧
    FinancialTools.get_payment_trends toChar table g limit phone =
      FinancialTools.get_payment_trends toChar table "month" limit phone := by
  simp only [List.mem_cons, not_or] at hg
  obtain ⟨n1, n2, -⟩ := hg
  have hf : trendDateFormat g = trendDateFormat "month" := by
    unfold trendDateFormat
    rw [if_neg n1, if_neg n2]
    rfl
  have h1 : PaymentRepository.get_trend_data toChar table g limit phone =
      PaymentRepository.get_trend_data toChar table "month" limit phone := by
    unfold PaymentRepository.get_trend_data
    rw [hf]
  refine ⟨h1, ?_⟩
  unfold FinancialTools.get_payment_trends
  rw [h1]

theorem sum_map_div_mul (l : List ℚ) (T : ℚ) :
    (l.map fun x => x / T * 100).sum = l.sum / T * 100 := by
  induction l with
  | nil => simp
  | cons h t ih =>
      simp only [List.map_cons, List.sum_cons, ih]
      rw [add_div, add_mul]

theorem computePercentages_total_map (cats : List CatRow) :
    ((FinancialTools.computePercentages cats).map fun c => c.total) =
      cats.map fun c => c.total := by
  unfold FinancialTools.computePercentages
  simp [List.map_map, Function.comp_def]

theorem computePercentages_props (cats : List CatRow) :
    (0 < ((FinancialTools.computePercentages cats).map fun c => c.total).sum →
      ((FinancialTools.computePercentages cats).map
        fun c => c.percentage).sum = 100) ∧
    (((FinancialTools.computePercentages cats).map fun c => c.total).sum = 0 →
      ∀ c ∈ FinancialTools.computePercentages cats, c.percentage = 0) := by
  rw [computePercentages_total_map]
  constructor
  · intro hpos
    unfold FinancialTools.computePercentages
    simp only [List.map_map, Function.comp_def]
    simp only [if_pos hpos]
    rw [show (cats.map fun c => c.total / (cats.map fun c => c.total).sum * 100) =
        ((cats.map fun c => c.total).map
          fun x => x / (cats.map fun c => c.total).sum * 100) by
      simp [List.map_map, Function.comp_def]]
    rw [sum_map_div_mul, div_self (ne_of_gt hpos), one_mul]
  · intro h0
    intro c hc
    unfold FinancialTools.computePercentages at hc
    simp only [List.mem_map] at hc
    obtain ⟨c0, -, hc0⟩ := hc
    subst hc0
    dsimp only
    rw [h0]
    simp

/-- C6: in every list returned by `get_spending_by_category`, when the grand
total across the returned groups is positive the per-group percentages sum to
exactly 100, and when the grand total is zero every group's percentage is 0. -/
theorem category_percentages_sum (table : List Payment) (now : DateTime)
    (period : String) (phone : Option String) (out : List CatRowP)
    (hok : FinancialTools.get_spending_by_category table now period phone =
      .ok out) :
    (0 < (out.map fun c => c.total).sum →
      (out.map fun c => c.percentage).sum = 100) ∧
    ((out.map fun c => c.total).sum = 0 → ∀ c ∈ out, c.percentage = 0) := by
  unfold FinancialTools.get_spending_by_category at hok
  cases hdr : get_date_range period now with
  | error e =>
      rw [hdr] at hok
      exact absurd hok (by simp)
  | ok sd =>
      obtain ⟨sdate, edate⟩ := sd
      rw [hdr] at hok
      simp only [Except.ok.injEq] at hok
      subst hok
      exact computePercentages_props _

/-- C7: every row of the top-recipients aggregation has `average = total/count`
exactly whenever `count > 0`, its name comes from a non-null name in the
table, the rows are ordered by total descending, and at most `limit` rows are
returned. -/
theorem top_recipients_rows (table : List Payment) (direction : String)
    (sd ed : Option DateTime) (limit : Int) (phone : Option String) :
    (∀ r ∈ PaymentRepository.get_top_recipients_aggregated table direction sd
        ed limit phone,
      (0 < r.count → r.average = r.total / r.count) ∧
      ∃ p ∈ table, p.name = some r.name) ∧
    List.Pairwise (fun a b : RecipRowAvg => b.total ≤ a.total)
      (PaymentRepository.get_top_recipients_aggregated table direction sd ed
        limit phone) ∧
    (PaymentRepository.get_top_recipients_aggregated table direction sd ed
        limit phone).length ≤ limit.toNat := by
  unfold PaymentRepository.get_top_recipients_aggregated
  refine ⟨?_, ?_, ?_⟩
  · intro r hr
    simp only [List.mem_map] at hr
    obtain ⟨r0, hr0, hrr⟩ := hr
    subst hrr
    constructor
    · intro hcount
      simp only at hcount ⊢
      rw [if_pos hcount]
    · have h1 : r0 ∈ List.insertionSort totGeR (aggregateByName
          (table.filter fun p =>
            paidGte p sd && paidLte p ed && dirFilter p direction &&
              phoneFilter p phone && p.name.isSome)) :=
        List.mem_of_mem_take hr0
      have h2 : r0 ∈ aggregateByName (table.filter fun p =>
          paidGte p sd && paidLte p ed && dirFilter p direction &&
            phoneFilter p phone && p.name.isSome) :=
        (List.perm_insertionSort totGeR _).mem_iff.mp h1
      unfold aggregateByName at h2
      simp only [List.mem_map] at h2
      obtain ⟨n, hn, hr0n⟩ := h2
      rw [List.mem_dedup, List.mem_filterMap] at hn
      obtain ⟨p, hp, hpn⟩ := hn
      refine ⟨p, List.mem_of_mem_filter hp, ?_⟩
      subst hr0n
      simp only
      rw [hpn]
  · have hs := List.sorted_insertionSort totGeR (aggregateByName
      (table.filter fun p =>
        paidGte p sd && paidLte p ed && dirFilter p direction &&
          phoneFilter p phone && p.name.isSome))
    have ht : List.Pairwise totGeR ((List.insertionSort totGeR (aggregateByName
        (table.filter fun p =>
          paidGte p sd && paidLte p ed && dirFilter p direction &&
            phoneFilter p phone && p.name.isSome))).take limit.toNat) :=
      hs.sublist (List.take_sublist _ _)
    exact ht.map _ (fun a b hab => hab)
  · rw [List.length_map, List.length_take]
    exact min_le_left _ _

/-! Fixtures for the recipient-lookup and aggregation claims. -/

def cDT : DateTime := ⟨2026, 1, 10, 0, 0, 0, 0⟩

/-- A matching payment that has not settled (`paid_at IS NULL`). -/
def pNull : Payment :=
  { id := 1, name := some "Safaricom Ltd", direction := "outgoing",
    amount := 10, sender_id := "MPESA",
    consumer_phone_number := "254700000001", paid_at := none,
    created_at := cDT, transaction_id := "T1" }

/-- A matching payment settled on 2026-01-05. -/
def pDated : Payment :=
  { id := 2, name := some "Airtime Safaricom", direction := "outgoing",
    amount := 20, sender_id := "MPESA",
    consumer_phone_number := "254700000001",
    paid_at := some ⟨2026, 1, 5, 0, 0, 0, 0⟩, created_at := cDT,
    transaction_id := "T2" }

/-- C8 counterexample: the claim says null-settlement payments sort last, but
under `ORDER BY paid_at DESC` PostgreSQL places `NULL` first. With one
settled and one unsettled matching payment, the unsettled one is returned
first, so null-settlement payments do not sort last. -/
theorem fuzzy_lookup_nulls_first_counterexample :
    PaymentRepository.get_payments_by_name_fuzzy [pDated, pNull] "safaricom"
      10 none = [pNull, pDated] ∧
    pNull.paid_at = none ∧
    pDated.paid_at = some ⟨2026, 1, 5, 0, 0, 0, 0⟩ := by
  refine ⟨by decide, rfl, rfl⟩

/-- C8 (amended): the recipient fuzzy lookup returns only case-insensitive
substring matches from the table, ordered by settlement time descending with
null-settlement payments sorting FIRST (PostgreSQL `DESC` places `NULL`
first), capped at `limit`; when the limit covers them it returns exactly the
matches (a permutation), and an empty match yields an empty list rather than
an error. -/
theorem fuzzy_lookup_order (table : List Payment) (name : String)
    (limit : Int) (phone : Option String) :
    (∀ p ∈ PaymentRepository.get_payments_by_name_fuzzy table name limit phone,
      p ∈ table ∧ icontains p.name name = true ∧ phoneFilter p phone = true) ∧
    List.Pairwise paidDescR
      (PaymentRepository.get_payments_by_name_fuzzy table name limit phone) ∧
    ((table.filter fun p => icontains p.name name && phoneFilter p phone) =
        [] →
      PaymentRepository.get_payments_by_name_fuzzy table name limit phone =
        []) ∧
    ((table.filter fun p =>
        icontains p.name name && phoneFilter p phone).length ≤ limit.toNat →
      (PaymentRepository.get_payments_by_name_fuzzy table name limit
        phone).Perm
        (table.filter fun p => icontains p.name name && phoneFilter p phone)) := by
  unfold PaymentRepository.get_payments_by_name_fuzzy
  refine ⟨?_, ?_, ?_, ?_⟩
  · intro p hp
    have h1 : p ∈ List.insertionSort paidDescR (table.filter fun p =>
        icontains p.name name && phoneFilter p phone) :=
      List.mem_of_mem_take hp
    have h2 : p ∈ table.filter fun p =>
        icontains p.name name && phoneFilter p phone :=
      (List.perm_insertionSort paidDescR _).mem_iff.mp h1
    have h3 := List.of_mem_filter h2
    rw [Bool.and_eq_true] at h3
    exact ⟨List.mem_of_mem_filter h2, h3.1, h3.2⟩
  · have hs := List.sorted_insertionSort paidDescR (table.filter fun p =>
      icontains p.name name && phoneFilter p phone)
    exact hs.sublist (List.take_sublist _ _)
  · intro hnil
    rw [hnil]
    simp
  · intro hlen
    have hperm := List.perm_insertionSort paidDescR (table.filter fun p =>
      icontains p.name name && phoneFilter p phone)
    have hlen2 : (List.insertionSort paidDescR (table.filter fun p =>
        icontains p.name name && phoneFilter p phone)).length ≤ limit.toNat := by
      rw [hperm.length_eq]
      exact hlen
    rw [List.take_of_length_le hlen2]
    exact hperm

def nowW : DateTime := ⟨2026, 10, 12, 9, 0, 0, 0⟩

/-- A trivial stand-in for the database's `TO_CHAR`. -/
def tcW : DateTime → String → String := fun _ _ => ""

def pA1 : Payment :=
  { id := 1, name := some "Alice", direction := "outgoing", amount := 10,
    sender_id := "MPESA", consumer_phone_number := "254700000001",
    paid_at := some ⟨2026, 10, 1, 0, 0, 0, 0⟩, created_at := nowW,
    transaction_id := "TA1" }

def pA2 : Payment :=
  { id := 2, name := some "Alice", direction := "outgoing", amount := 20,
    sender_id := "MPESA", consumer_phone_number := "254700000001",
    paid_at := some ⟨2026, 10, 2, 0, 0, 0, 0⟩, created_at := nowW,
    transaction_id := "TA2" }

def pB1 : Payment :=
  { id := 3, name := some "Bob", direction := "outgoing", amount := 40,
    sender_id := "AIRTEL", consumer_phone_number := "254700000001",
    paid_at := some ⟨2026, 10, 3, 0, 0, 0, 0⟩, created_at := nowW,
    transaction_id := "TB1" }

def tblW : List Payment := [pA1, pA2, pB1]

/-- The category output on the fixture table: AIRTEL 40 of 70, MPESA 30 of 70. -/
def outW : List CatRowP :=
  [⟨"AIRTEL", 40, 1, 400 / 7⟩, ⟨"MPESA", 30, 2, 300 / 7⟩]

theorem limit_validation_bounds_witness :
    isOkE (FinancialTools.get_payments_by_recipient [] "x" 100 none) = true ∧
    FinancialTools.get_payments_by_recipient [] "x" 101 none =
      .error "Limit must be between 1 and 100" ∧
    isOkE (FinancialTools.get_top_recipients [] nowW "outgoing" 20 "all_time"
      none) = true ∧
    FinancialTools.get_top_recipients [] nowW "outgoing" 0 "this_month" none =
      .error "Limit must be between 1 and 20" ∧
    isOkE (FinancialTools.get_payment_trends tcW [] "month" 365 none) = true ∧
    FinancialTools.get_payment_trends tcW [] "month" 366 none =
      .error "Limit must be between 1 and 365" := by
  have hA := limit_validation_bounds [] nowW "x" tcW "month" none 100 20 365
    "this_month"
  have hB := limit_validation_bounds [] nowW "x" tcW "month" none 101 0 366
    "this_month"
  exact ⟨hA.1.mpr (by decide), hB.2.1 (by decide), hA.2.2.1.mpr (by decide),
    hB.2.2.2.1 (by decide), hA.2.2.2.2.1.mpr (by decide),
    hB.2.2.2.2.2 (by decide)⟩

theorem category_percentages_sum_witness :
    FinancialTools.get_spending_by_category tblW nowW "all_time" none =
      .ok outW ∧
    0 < (outW.map fun c => c.total).sum ∧
    (outW.map fun c => c.percentage).sum = 100 := by
  refine ⟨by with_unfolding_all rfl, by with_unfolding_all decide, ?_⟩
  exact (category_percentages_sum tblW nowW "all_time" none outW
    (by with_unfolding_all rfl)).1 (by with_unfolding_all decide)

theorem top_recipients_rows_witness :
    ((⟨"Alice", 30, 2, 15⟩ : RecipRowAvg) ∈
      PaymentRepository.get_top_recipients_aggregated tblW "all" none none 5
        none) ∧
    ((⟨"Alice", 30, 2, 15⟩ : RecipRowAvg).average =
      (⟨"Alice", 30, 2, 15⟩ : RecipRowAvg).total /
        (⟨"Alice", 30, 2, 15⟩ : RecipRowAvg).count) ∧
    (PaymentRepository.get_top_recipients_aggregated tblW "all" none none 5
      none).length ≤ (5 : Int).toNat := by
  have h := top_recipients_rows tblW "all" none none 5 none
  refine ⟨by with_unfolding_all decide, ?_, h.2.2⟩
  exact (h.1 ⟨"Alice", 30, 2, 15⟩ (by with_unfolding_all decide)).1 (by decide)

theorem fuzzy_lookup_order_witness :
    List.Pairwise paidDescR
      (PaymentRepository.get_payments_by_name_fuzzy [pDated, pNull]
        "safaricom" 10 none) ∧
    (([pA1].filter fun p => icontains p.name "zzz" && phoneFilter p none) =
      []) ∧
    PaymentRepository.get_payments_by_name_fuzzy [pA1] "zzz" 10 none = [] := by
  refine ⟨(fuzzy_lookup_order [pDated, pNull] "safaricom" 10 none).2.1,
    by decide, ?_⟩
  exact (fuzzy_lookup_order [pA1] "zzz" 10 none).2.2.1 (by decide)

theorem trend_granularity_fallback_witness :
    ("hourly" ∉ (["day", "week", "month"] : List String)) ∧
    FinancialTools.get_payment_trends tcW tblW "hourly" 12 none =
      FinancialTools.get_payment_trends tcW tblW "month" 12 none :=
  ⟨by decide, (trend_granularity_fallback tcW tblW "hourly" 12 none
    (by decide)).2⟩
